import Mathlib

/-!
Shallow embedding of the `openrouter_py` client library
(`src/openrouter_py/`): the JSON value model, the typed response
records (`ChatCompletion`, `Model`, `Credits`, `StreamChunk`), the
error taxonomy (`exceptions/errors.py`), the request/response handling
of `OpenRouterClient` and `AsyncOpenRouterClient`, and the streaming
line parser of `chat_completion_stream`.
-/

namespace OpenRouterPy

/-- A JSON value, as produced by Python's `json.loads`.  Finite
numbers are modelled as rationals (Python distinguishes int/float only
by the presence of a fraction/exponent; the records below require an
integral value where the field type is `int`); the nonstandard
`NaN`/`Infinity`/`-Infinity` literals `json.loads` accepts by default
become `nan` and `inf` (the flag is the sign). -/
inductive Json where
  | null : Json
  | bool : Bool → Json
  | num : Rat → Json
  | str : String → Json
  | arr : List Json → Json
  | obj : List (String × Json) → Json
  | nan : Json
  | inf : Bool → Json

/-- JSON whitespace, as accepted by Python's `json` module. -/
def isJsonWs (c : Char) : Bool :=
  c = ' ' || c = '\t' || c = '\n' || c = '\x0d'

/-- Skip leading JSON whitespace. -/
def skipWs (s : List Char) : List Char :=
  s.dropWhile isJsonWs

/-- Parse the four hex digits of a `\uXXXX` escape. -/
def hexDigit (c : Char) : Option Nat :=
  if '0' ≤ c ∧ c ≤ '9' then some (c.toNat - '0'.toNat)
  else if 'a' ≤ c ∧ c ≤ 'f' then some (c.toNat - 'a'.toNat + 10)
  else if 'A' ≤ c ∧ c ≤ 'F' then some (c.toNat - 'A'.toNat + 10)
  else none

/-- Parse the body of a JSON string literal (after the opening quote),
returning the decoded characters and the input after the closing
quote.  Escapes are decoded as in Python's `json` module (surrogate
pairs are not combined; each `\uXXXX` becomes one character), and an
unescaped control character below U+0020 is a decode error, as in
Python's default strict mode. -/
def parseStringBody (fuel : Nat) (s : List Char) : Option (List Char × List Char) :=
  match fuel with
  | 0 => none
  | fuel + 1 =>
    match s with
    | [] => none
    | '"' :: rest => some ([], rest)
    | '\\' :: e :: rest =>
      let decoded : Option (Char × List Char) :=
        match e with
        | '"' => some ('"', rest)
        | '\\' => some ('\\', rest)
        | '/' => some ('/', rest)
        | 'b' => some ('\x08', rest)
        | 'f' => some ('\x0c', rest)
        | 'n' => some ('\n', rest)
        | 'r' => some ('\x0d', rest)
        | 't' => some ('\t', rest)
        | 'u' =>
          match rest with
          | a :: b :: c :: d :: rest2 =>
            match hexDigit a, hexDigit b, hexDigit c, hexDigit d with
            | some x, some y, some z, some w =>
              some (Char.ofNat (((x * 16 + y) * 16 + z) * 16 + w), rest2)
            | _, _, _, _ => none
          | _ => none
        | _ => none
      match decoded with
      | some (c, rest2) =>
        match parseStringBody fuel rest2 with
        | some (cs, rest3) => some (c :: cs, rest3)
        | none => none
      | none => none
    | c :: rest =>
      if c.toNat < 32 then none
      else
        match parseStringBody fuel rest with
        | some (cs, rest2) => some (c :: cs, rest2)
        | none => none

/-- Digits of a decimal numeral, most significant first, as a Nat. -/
def digitsToNat (ds : List Char) : Nat :=
  ds.foldl (fun acc c => acc * 10 + (c.toNat - '0'.toNat)) 0

/-- An integer as a rational, built without normalization so that the
kernel can evaluate parses of concrete inputs. -/
def intAsRat (n : Int) : Rat :=
  Rat.mk' n 1 one_ne_zero (Nat.coprime_one_right _)

/-- Parse a JSON number (integer part, optional fraction, optional
exponent) into a rational.  An integer literal (the only numeral shape
the typed records put in an `int` field) is built without rational
arithmetic. -/
def parseNumber (s : List Char) : Option (Rat × List Char) :=
  let (neg, s1) :=
    match s with
    | '-' :: rest => (true, rest)
    | _ => (false, s)
  let intDigits := s1.takeWhile Char.isDigit
  let s2 := s1.dropWhile Char.isDigit
  if intDigits.isEmpty then none
  else
    let intVal : Int :=
      if neg then -(digitsToNat intDigits : Int) else (digitsToNat intDigits : Int)
    let (fracPart, s3) :=
      match s2 with
      | '.' :: rest =>
        let fracDigits := rest.takeWhile Char.isDigit
        let rest2 := rest.dropWhile Char.isDigit
        if fracDigits.isEmpty then ((none : Option Rat), s2)
        else (some ((digitsToNat fracDigits : Rat) / ((10 : Rat) ^ fracDigits.length)), rest2)
      | _ => (none, s2)
    match s2, fracPart with
    | '.' :: _, none => none
    | _, _ =>
      let (expPart, s4) :=
        match s3 with
        | 'e' :: rest => (some rest, s3)
        | 'E' :: rest => (some rest, s3)
        | _ => (none, s3)
      match expPart with
      | none =>
        match fracPart with
        | none => some (intAsRat intVal, s4)
        | some f =>
          let v : Rat := (intVal : Rat) + (if neg then -f else f)
          some (v, s4)
      | some rest =>
        let (eneg, rest2) :=
          match rest with
          | '-' :: r => (true, r)
          | '+' :: r => (false, r)
          | _ => (false, rest)
        let expDigits := rest2.takeWhile Char.isDigit
        let rest3 := rest2.dropWhile Char.isDigit
        if expDigits.isEmpty then none
        else
          let e := digitsToNat expDigits
          let mantissa : Rat := (intVal : Rat) + (if neg then -(fracPart.getD 0) else fracPart.getD 0)
          let v := if eneg then mantissa / ((10 : Rat) ^ e) else mantissa * ((10 : Rat) ^ e)
          some (v, rest3)

/-- Consume an expected literal keyword (`null`, `true`, `false`). -/
def expectChars : List Char → List Char → Option (List Char)
  | [], s => some s
  | c :: cs, d :: s => if c = d then expectChars cs s else none
  | _ :: _, [] => none

mutual

/-- Parse one JSON value from the input (leading whitespace allowed),
returning the value and the rest of the input. -/
def parseValue (fuel : Nat) (s : List Char) : Option (Json × List Char) :=
  match fuel with
  | 0 => none
  | fuel + 1 =>
    match skipWs s with
    | [] => none
    | 'n' :: rest => (expectChars ['u', 'l', 'l'] rest).map (fun r => (Json.null, r))
    | 't' :: rest => (expectChars ['r', 'u', 'e'] rest).map (fun r => (Json.bool true, r))
    | 'f' :: rest => (expectChars ['a', 'l', 's', 'e'] rest).map (fun r => (Json.bool false, r))
    | 'N' :: rest => (expectChars ['a', 'N'] rest).map (fun r => (Json.nan, r))
    | 'I' :: rest =>
      (expectChars ['n', 'f', 'i', 'n', 'i', 't', 'y'] rest).map (fun r => (Json.inf false, r))
    | '-' :: 'I' :: rest =>
      (expectChars ['n', 'f', 'i', 'n', 'i', 't', 'y'] rest).map (fun r => (Json.inf true, r))
    | '"' :: rest =>
      match parseStringBody rest.length.succ rest with
      | some (cs, rest2) => some (Json.str (String.mk cs), rest2)
      | none => none
    | '[' :: rest =>
      match skipWs rest with
      | ']' :: rest2 => some (Json.arr [], rest2)
      | _ =>
        match parseElements fuel rest with
        | some (elems, rest2) => some (Json.arr elems, rest2)
        | none => none
    | '{' :: rest =>
      match skipWs rest with
      | '}' :: rest2 => some (Json.obj [], rest2)
      | _ =>
        match parseMembers fuel rest with
        | some (mems, rest2) => some (Json.obj mems, rest2)
        | none => none
    | s1 =>
      match parseNumber s1 with
      | some (q, rest) => some (Json.num q, rest)
      | none => none

/-- Parse a nonempty comma-separated list of array elements,
including the closing bracket. -/
def parseElements (fuel : Nat) (s : List Char) : Option (List Json × List Char) :=
  match fuel with
  | 0 => none
  | fuel + 1 =>
    match parseValue fuel s with
    | some (v, rest) =>
      match skipWs rest with
      | ',' :: rest2 =>
        match parseElements fuel rest2 with
        | some (vs, rest3) => some (v :: vs, rest3)
        | none => none
      | ']' :: rest2 => some ([v], rest2)
      | _ => none
    | none => none

/-- Parse a nonempty comma-separated list of object members,
including the closing brace. -/
def parseMembers (fuel : Nat) (s : List Char) : Option (List (String × Json) × List Char) :=
  match fuel with
  | 0 => none
  | fuel + 1 =>
    match skipWs s with
    | '"' :: rest =>
      match parseStringBody rest.length.succ rest with
      | some (kcs, rest2) =>
        match skipWs rest2 with
        | ':' :: rest3 =>
          match parseValue fuel rest3 with
          | some (v, rest4) =>
            match skipWs rest4 with
            | ',' :: rest5 =>
              match parseMembers fuel rest5 with
              | some (ms, rest6) => some ((String.mk kcs, v) :: ms, rest6)
              | none => none
            | '\x7d' :: rest5 => some ([(String.mk kcs, v)], rest5)
            | _ => none
          | none => none
        | _ => none
      | none => none
    | _ => none

end

/-- Model of Python's `json.loads`: parse the whole string as a single
JSON value (surrounding whitespace allowed), `none` on a decode
error (Python raises `json.JSONDecodeError`). -/
def loads (s : String) : Option Json :=
  match parseValue (s.length + 1) s.data with
  | some (j, rest) => if (skipWs rest).isEmpty then some j else none
  | none => none

/-- Look a key up in a JSON object / Python dict.  `json.loads` builds
the dict in member order with later duplicates overwriting earlier
ones, so the last binding wins. -/
def dictGet (d : List (String × Json)) (k : String) : Option Json :=
  (d.reverse.find? (fun p => p.1 = k)).map Prod.snd

/-! ## Python string operations

Python strings are sequences of code points, so `startswith`, slicing
and `strip` are modelled on the character list of the string. -/

/-- Python `s.startswith(p)`. -/
def pyStartsWith (s p : String) : Bool :=
  s.data.take p.data.length == p.data

/-- Python `s[n:]`: drop the first `n` code points. -/
def pyDrop (s : String) (n : Nat) : String :=
  String.mk (s.data.drop n)

/-- The whitespace characters Python's `str.strip()` removes
(the ASCII ones; the stray unicode space classes never occur in the
protocol text). -/
def pySpace (c : Char) : Bool :=
  c = ' ' || c = '\t' || c = '\n' || c = '\x0d' || c = '\x0b' || c = '\x0c'

/-- Python `s.strip()`: remove leading and trailing whitespace. -/
def pyStrip (s : String) : String :=
  String.mk (((s.data.dropWhile pySpace).reverse.dropWhile pySpace).reverse)

/-- Numeric-string parsing as pydantic's lax mode performs it on a
string fed to an `int` or `float` field: the string, stripped of
surrounding whitespace, read as a finite decimal numeral with optional
sign, fraction and exponent.  (Digit-group underscores and the
nonfinite spellings are not modelled; see `isNonfiniteFloat` for the
latter.)  An integer-shaped string is built without rational
arithmetic so the kernel can evaluate concrete coercions. -/
def strToRat (s : String) : Option Rat :=
  let cs := (pyStrip s).data
  let (neg, c1) :=
    match cs with
    | '+' :: r => (false, r)
    | '-' :: r => (true, r)
    | _ => (false, cs)
  let intDigits := c1.takeWhile Char.isDigit
  let c2 := c1.dropWhile Char.isDigit
  let (fracDigits, c3) :=
    match c2 with
    | '.' :: r => (r.takeWhile Char.isDigit, r.dropWhile Char.isDigit)
    | _ => (([] : List Char), c2)
  if intDigits.isEmpty && fracDigits.isEmpty then none
  else
    let exp : Option (Int × List Char) :=
      match c3 with
      | 'e' :: r =>
        let (eneg, r2) :=
          match r with
          | '+' :: rr => (false, rr)
          | '-' :: rr => (true, rr)
          | _ => (false, r)
        let eds := r2.takeWhile Char.isDigit
        let r3 := r2.dropWhile Char.isDigit
        if eds.isEmpty then none
        else some ((if eneg then -(digitsToNat eds : Int) else (digitsToNat eds : Int)), r3)
      | 'E' :: r =>
        let (eneg, r2) :=
          match r with
          | '+' :: rr => (false, rr)
          | '-' :: rr => (true, rr)
          | _ => (false, r)
        let eds := r2.takeWhile Char.isDigit
        let r3 := r2.dropWhile Char.isDigit
        if eds.isEmpty then none
        else some ((if eneg then -(digitsToNat eds : Int) else (digitsToNat eds : Int)), r3)
      | _ => some (0, c3)
    match exp with
    | none => none
    | some (e, c4) =>
      if !c4.isEmpty then none
      else
        let n : Int := if neg then -(digitsToNat intDigits : Int) else (digitsToNat intDigits : Int)
        if fracDigits.isEmpty && e = 0 then some (intAsRat n)
        else
          let f : Rat := (digitsToNat fracDigits : Rat) / ((10 : Rat) ^ fracDigits.length)
          let mantissa : Rat := (n : Rat) + (if neg then -f else f)
          some (if e < 0 then mantissa / ((10 : Rat) ^ e.natAbs)
                else mantissa * ((10 : Rat) ^ e.natAbs))

/-- Source `ChatMessage` (models/chat.py). -/
structure ChatMessage where
  role : String
  content : String
  name : Option String
deriving DecidableEq

/-- Source `ChatCompletionUsage` (models/chat.py). -/
structure ChatCompletionUsage where
  prompt_tokens : Int
  completion_tokens : Int
  total_tokens : Int
deriving DecidableEq

/-- Source `ChatCompletionChoice` (models/chat.py). -/
structure ChatCompletionChoice where
  index : Int
  message : ChatMessage
  finish_reason : Option String
deriving DecidableEq

/-- Source `ChatCompletion` (models/chat.py). -/
structure ChatCompletion where
  id : String
  object : String
  created : Int
  model : String
  choices : List ChatCompletionChoice
  usage : Option ChatCompletionUsage
deriving DecidableEq

/-- Source `ChatCompletion.message`: `self.choices[0].message if self.choices
else None` (a Python list is truthy iff nonempty). -/
def ChatCompletion.message (c : ChatCompletion) : Option ChatMessage :=
  match c.choices with
  | [] => none
  | ch :: _ => some ch.message

/-- Source `ChatCompletion.content`: `self.message.content if self.message
else None` (a pydantic model instance is always truthy, so only the
`None` case of `message` is falsy). -/
def ChatCompletion.content (c : ChatCompletion) : Option String :=
  match c.message with
  | some m => some m.content
  | none => none

/-- Source `StreamChoice` (models/streaming.py).  `delta` is a
`dict[str, Any]`, modelled as the member list of the JSON object. -/
structure StreamChoice where
  index : Int
  delta : List (String × Json)
  finish_reason : Option String

/-- Source `StreamChunk` (models/streaming.py). -/
structure StreamChunk where
  id : String
  object : String
  created : Int
  model : String
  choices : List StreamChoice

/-- Source `StreamChunk.content`: returns `self.choices[0].delta.get("content")`
when `self.choices` is truthy (nonempty) and the first delta dict is
truthy (nonempty), else `None`.  The result is the stored value, which
Python does not check to be a string; `none` stands for Python `None`
(key absent, or stored JSON `null`). -/
def StreamChunk.content (c : StreamChunk) : Option Json :=
  match c.choices with
  | [] => none
  | ch :: _ =>
    if ch.delta.isEmpty then none
    else
      match dictGet ch.delta "content" with
      | some Json.null => none
      | some v => some v
      | none => none

/-- Source `StreamChunk.is_finished`: `any(choice.finish_reason is not None
for choice in self.choices)`. -/
def StreamChunk.is_finished (c : StreamChunk) : Bool :=
  c.choices.any (fun choice => choice.finish_reason.isSome)

/-- Source `ModelData` (models/model.py). -/
structure ModelData where
  id : String
  name : String
  description : Option String
  context_length : Option Int
  pricing : Option (List (String × Json))
  top_provider : Option (List (String × Json))

/-- Source `Model` (models/model.py): response of the models API. -/
structure Model where
  data : List ModelData

/-- Source `CreditsData` (models/balance.py). -/
structure CreditsData where
  total_credits : Rat
  total_usage : Rat
deriving DecidableEq

/-- Source `CreditsData.remaining_credits`. -/
def CreditsData.remaining_credits (d : CreditsData) : Rat :=
  d.total_credits - d.total_usage

/-- Source `Credits` (models/balance.py): response of the credits API. -/
structure Credits where
  data : CreditsData
deriving DecidableEq

/-- Source `Credits.balance`. -/
def Credits.balance (c : Credits) : Rat :=
  c.data.remaining_credits

/-- Source `Credits.total_purchased`. -/
def Credits.total_purchased (c : Credits) : Rat :=
  c.data.total_credits

/-- Source `Credits.total_used`. -/
def Credits.total_used (c : Credits) : Rat :=
  c.data.total_usage

/-! ## Pydantic validation

`Record(**data)` with `data` a dict validates the keywords against the
record's fields: required fields must be present with a value of the
declared type (with pydantic's default lax coercions), `Optional`
fields with default `None` may be absent or `null`, and extra keys are
ignored.  A failed validation raises pydantic's `ValidationError`,
modelled as `none` of the `validate` functions.  `Record(**data)` with
`data` not a mapping instead raises `TypeError` at the `**`-unpacking
before pydantic runs; that path is modelled at each call site.  A
*nested* model field involves no `**`: pydantic itself validates the
value, and a non-dict there is an ordinary `ValidationError` (the
`fromJson` functions of the submodels). -/

/-- A `str` field accepts exactly a JSON string. -/
def asStr : Json → Option String
  | Json.str s => some s
  | _ => none

/-- An `int` field, lax mode: accepts an integral JSON number or a
numeric string with integral value (pydantic coerces `"1"`, `"1.0"`,
`"1e3"`); a fractional value, a bool, or a nonfinite number is
rejected. -/
def asInt : Json → Option Int
  | Json.num q => if q.den = 1 then some q.num else none
  | Json.str s =>
    match strToRat s with
    | some q => if q.den = 1 then some q.num else none
    | none => none
  | _ => none

/-- A `float` field, lax mode: accepts any finite JSON number or a
numeric string (pydantic coerces `"1.5"`); a bool is rejected.
Nonfinite inputs, which pydantic would admit, lie outside the rational
model (see `isNonfiniteFloat`). -/
def asFloat : Json → Option Rat
  | Json.num q => some q
  | Json.str s => strToRat s
  | _ => none

/-- A `dict[str, Any]` field accepts exactly a JSON object. -/
def asDict : Json → Option (List (String × Json))
  | Json.obj o => some o
  | _ => none

/-- An optional field with default `None`: absent or `null` gives
`none`; otherwise the declared type must validate. -/
def asOpt (f : Json → Option α) : Option Json → Option (Option α)
  | none => some none
  | some Json.null => some none
  | some v => (f v).map some

/-- A required field: must be present and validate. -/
def asReq (f : Json → Option α) : Option Json → Option α
  | none => none
  | some v => f v

/-- Validate `ChatMessage(**·)`. -/
def ChatMessage.fromJson (j : Json) : Option ChatMessage := do
  let o ← asDict j
  let role ← asReq asStr (dictGet o "role")
  let content ← asReq asStr (dictGet o "content")
  let name ← asOpt asStr (dictGet o "name")
  pure ⟨role, content, name⟩

/-- Validate `ChatCompletionUsage(**·)`. -/
def ChatCompletionUsage.fromJson (j : Json) : Option ChatCompletionUsage := do
  let o ← asDict j
  let p ← asReq asInt (dictGet o "prompt_tokens")
  let c ← asReq asInt (dictGet o "completion_tokens")
  let t ← asReq asInt (dictGet o "total_tokens")
  pure ⟨p, c, t⟩

/-- Validate `ChatCompletionChoice(**·)`. -/
def ChatCompletionChoice.fromJson (j : Json) : Option ChatCompletionChoice := do
  let o ← asDict j
  let index ← asReq asInt (dictGet o "index")
  let message ← asReq ChatMessage.fromJson (dictGet o "message")
  let finish ← asOpt asStr (dictGet o "finish_reason")
  pure ⟨index, message, finish⟩

/-- Validate `ChatCompletion(**o)` for a dict `o` (pydantic runs; a
non-dict never reaches it — see the section comment). -/
def ChatCompletion.validate (o : List (String × Json)) : Option ChatCompletion := do
  let id ← asReq asStr (dictGet o "id")
  let object ← asReq asStr (dictGet o "object")
  let created ← asReq asInt (dictGet o "created")
  let model ← asReq asStr (dictGet o "model")
  let choicesJson ← asReq (fun v => match v with | Json.arr l => some l | _ => none) (dictGet o "choices")
  let choices ← choicesJson.mapM ChatCompletionChoice.fromJson
  let usage ← asOpt ChatCompletionUsage.fromJson (dictGet o "usage")
  pure ⟨id, object, created, model, choices, usage⟩

/-- Validate `StreamChoice(**·)`. -/
def StreamChoice.fromJson (j : Json) : Option StreamChoice := do
  let o ← asDict j
  let index ← asReq asInt (dictGet o "index")
  let delta ← asReq asDict (dictGet o "delta")
  let finish ← asOpt asStr (dictGet o "finish_reason")
  pure ⟨index, delta, finish⟩

/-- Validate `StreamChunk(**o)` for a dict `o` (pydantic runs; a
non-dict never reaches it — see the section comment). -/
def StreamChunk.validate (o : List (String × Json)) : Option StreamChunk := do
  let id ← asReq asStr (dictGet o "id")
  let object ← asReq asStr (dictGet o "object")
  let created ← asReq asInt (dictGet o "created")
  let model ← asReq asStr (dictGet o "model")
  let choicesJson ← asReq (fun v => match v with | Json.arr l => some l | _ => none) (dictGet o "choices")
  let choices ← choicesJson.mapM StreamChoice.fromJson
  pure ⟨id, object, created, model, choices⟩

/-- Validate `ModelData(**·)`. -/
def ModelData.fromJson (j : Json) : Option ModelData := do
  let o ← asDict j
  let id ← asReq asStr (dictGet o "id")
  let name ← asReq asStr (dictGet o "name")
  let description ← asOpt asStr (dictGet o "description")
  let context_length ← asOpt asInt (dictGet o "context_length")
  let pricing ← asOpt asDict (dictGet o "pricing")
  let top_provider ← asOpt asDict (dictGet o "top_provider")
  pure ⟨id, name, description, context_length, pricing, top_provider⟩

/-- Validate `Model(**o)` for a dict `o` (pydantic runs; a non-dict
never reaches it — see the section comment). -/
def Model.validate (o : List (String × Json)) : Option Model := do
  let dataJson ← asReq (fun v => match v with | Json.arr l => some l | _ => none) (dictGet o "data")
  let data ← dataJson.mapM ModelData.fromJson
  pure ⟨data⟩

/-- Validate `CreditsData(**·)`. -/
def CreditsData.fromJson (j : Json) : Option CreditsData := do
  let o ← asDict j
  let tc ← asReq asFloat (dictGet o "total_credits")
  let tu ← asReq asFloat (dictGet o "total_usage")
  pure ⟨tc, tu⟩

/-- Validate `Credits(**o)` for a dict `o` (pydantic runs; a non-dict
never reaches it — see the section comment). -/
def Credits.validate (o : List (String × Json)) : Option Credits := do
  let d ← asReq CreditsData.fromJson (dictGet o "data")
  pure ⟨d⟩

/-- The exception classes declared in `exceptions/errors.py`. -/
inductive ErrorClass where
  | openRouterError
  | apiError
  | authenticationError
  | rateLimitError
  | validationError
deriving DecidableEq

/-- The declared base class of each class, within the library
(`OpenRouterError` extends the builtin `Exception`, outside the
taxonomy). -/
def ErrorClass.base : ErrorClass → Option ErrorClass
  | .openRouterError => none
  | .apiError => some .openRouterError
  | .authenticationError => some .openRouterError
  | .rateLimitError => some .openRouterError
  | .validationError => some .openRouterError

/-- Walk the base-class chain for at most `fuel` steps. -/
def subclassWithin : Nat → ErrorClass → ErrorClass → Bool
  | 0, _, _ => false
  | fuel + 1, a, b =>
    a = b ||
      match a.base with
      | some p => subclassWithin fuel p b
      | none => false

/-- Python `issubclass` on the taxonomy: the base-class chain has at
most 5 classes, so 5 steps of `subclassWithin` suffice. -/
def ErrorClass.isSubclassOf (a b : ErrorClass) : Bool :=
  subclassWithin 5 a b

/-- An exception instance: every class in the taxonomy uses
`OpenRouterError.__init__(message, status_code=None)`, so every
instance carries a message and an optional status code. -/
structure OpenRouterError where
  cls : ErrorClass
  message : String
  status_code : Option Int
deriving DecidableEq

/-- Constructor call with the `status_code` argument omitted: the
parameter defaults to `None`. -/
def OpenRouterError.mk1 (cls : ErrorClass) (message : String) : OpenRouterError :=
  ⟨cls, message, none⟩

/-- Constructor call with an explicit `status_code`. -/
def OpenRouterError.mk2 (cls : ErrorClass) (message : String) (code : Int) : OpenRouterError :=
  ⟨cls, message, some code⟩

/-- An exception escaping a client operation: one of the library's
`OpenRouterError` kinds, the stdlib `json.JSONDecodeError` that
`response.json()` raises on an unparseable success body, or the
uncaught `TypeError` that `Record(**data)` raises when `data` is not a
mapping. -/
inductive PyError where
  | openRouter : OpenRouterError → PyError
  | jsonDecodeError : PyError
  | typeError : PyError
deriving DecidableEq

/-! ## HTTP responses

The HTTP exchange itself (httpx) is outside the embedding: each
client operation is modelled as a function of the response the server
returned.  `httpx.RequestError` (no response at all) is therefore out
of scope of the model. -/

mutual

/-- Nesting bound used as recursion fuel for `pyStr`. -/
def jsonDepth : Json → Nat
  | Json.arr l => 1 + jsonDepthList l
  | Json.obj o => 1 + jsonDepthMembers o
  | _ => 1

/-- Largest nesting depth of a list of values. -/
def jsonDepthList : List Json → Nat
  | [] => 0
  | j :: js => max (jsonDepth j) (jsonDepthList js)

/-- Largest nesting depth of the values of an object. -/
def jsonDepthMembers : List (String × Json) → Nat
  | [] => 0
  | (_, j) :: ms => max (jsonDepth j) (jsonDepthMembers ms)

end

namespace OpenRouterClient

/-- The API-key resolution of `OpenRouterClient.__init__`:
`self.api_key = api_key or os.getenv("OPENROUTER_API_KEY")` followed by
`if not self.api_key: raise AuthenticationError(...)`.  Python `or`
falls through on a falsy (empty or `None`) left operand; `os.getenv`
of an unset variable is `None`.  Returns the stored key, or the raised
error. -/
def init (api_key : Option String) (env_key : Option String) : Except OpenRouterError String :=
  let resolved : Option String :=
    match api_key with
    | some s => if s = "" then env_key else some s
    | none => env_key
  match resolved with
  | some s =>
    if s = "" then
      .error (OpenRouterError.mk1 .authenticationError
        "API key is required. Set OPENROUTER_API_KEY env var or pass api_key parameter.")
    else .ok s
  | none =>
    .error (OpenRouterError.mk1 .authenticationError
      "API key is required. Set OPENROUTER_API_KEY env var or pass api_key parameter.")

end OpenRouterClient

/-! ## Asynchronous client (`client/async_client.py`)

The method bodies of `AsyncOpenRouterClient` duplicate the synchronous
ones (with `await`); the embedding transliterates them separately from
their own source text. -/

namespace AsyncOpenRouterClient

/-- The API-key resolution of `AsyncOpenRouterClient.__init__`
(lines 43–48 of async_client.py, verbatim the synchronous logic). -/
def init (api_key : Option String) (env_key : Option String) : Except OpenRouterError String :=
  let resolved : Option String :=
    match api_key with
    | some s => if s = "" then env_key else some s
    | none => env_key
  match resolved with
  | some s =>
    if s = "" then
      .error (OpenRouterError.mk1 .authenticationError
        "API key is required. Set OPENROUTER_API_KEY env var or pass api_key parameter.")
    else .ok s
  | none =>
    .error (OpenRouterError.mk1 .authenticationError
      "API key is required. Set OPENROUTER_API_KEY env var or pass api_key parameter.")

/-- The line loop of `AsyncOpenRouterClient.chat_completion_stream`
(lines 296–308 of async_client.py): one pass over
`response.aiter_lines()`.  A line not starting with `"data: "` is
skipped; a `"data: "` line whose payload strips to `"[DONE]"` breaks
the loop; otherwise the payload is `json.loads`-decoded and fed to
`StreamChunk(**chunk_data)`.  The `except` clause catches only
`json.JSONDecodeError` and pydantic's `ValidationError` (`continue`);
a payload that is valid JSON but not a dict makes the `**`-unpacking
raise `TypeError`, which is *not* caught and aborts the generator.
The result is the list of chunks yielded before the loop ended,
paired with the uncaught exception if one aborted it (`none` for a
normal end: input exhausted or sentinel break). -/
def yieldChunks : List String → List StreamChunk × Option PyError
  | [] => ([], none)
  | line :: rest =>
    if pyStartsWith line "data: " then
      let data_str := pyDrop line 6
      if pyStrip data_str = "[DONE]" then ([], none)
      else
        match loads data_str with
        | some chunk_data =>
          match chunk_data with
          | Json.obj o =>
            match StreamChunk.validate o with
            | some chunk =>
              let r := yieldChunks rest
              (chunk :: r.1, r.2)
            | none => yieldChunks rest
          | _ => ([], some PyError.typeError)
        | none => yieldChunks rest
    else yieldChunks rest

/-- A streamed HTTP response: status code, the raw body decode used in
the `>= 400` error message (`await response.aread()`, decoded), and
the same body delivered as lines (`response.aiter_lines()`). -/
structure StreamHttpResponse where
  status_code : Nat
  text : String
  lines : List String

/-- Source `AsyncOpenRouterClient.chat_completion_stream`, response side:
status handling (lines 285–294) followed by the line loop; the `.ok`
value is the loop outcome (chunks yielded, and the uncaught exception
if one aborted the generator). -/
def chat_completion_stream (response : StreamHttpResponse) :
    Except PyError (List StreamChunk × Option PyError) :=
  if response.status_code = 401 then
    .error (.openRouter (OpenRouterError.mk1 .authenticationError "Invalid API key"))
  else if response.status_code = 429 then
    .error (.openRouter (OpenRouterError.mk1 .rateLimitError "Rate limit exceeded"))
  else if response.status_code ≥ 400 then
    .error (.openRouter (OpenRouterError.mk2 .apiError
      ("API error: " ++ response.text) response.status_code))
  else
    .ok (yieldChunks response.lines)

end AsyncOpenRouterClient

/-! ## Streaming-loop structure -/

/-- C6: the error taxonomy is rooted at the generic kind — each of the
authentication, rate-limit, validation and API error classes is a
subclass of `OpenRouterError` — and every error instance carries a
message and an optional status code, the status code defaulting to
absent when the constructor is called without it. -/
theorem c6_error_taxonomy :
    ErrorClass.authenticationError.isSubclassOf .openRouterError = true ∧
    ErrorClass.rateLimitError.isSubclassOf .openRouterError = true ∧
    ErrorClass.validationError.isSubclassOf .openRouterError = true ∧
    ErrorClass.apiError.isSubclassOf .openRouterError = true ∧
    (∀ (k : ErrorClass) (m : String),
      (OpenRouterError.mk1 k m).message = m ∧ (OpenRouterError.mk1 k m).status_code = none) ∧
    (∀ (k : ErrorClass) (m : String) (c : Int),
      (OpenRouterError.mk2 k m c).message = m ∧
        (OpenRouterError.mk2 k m c).status_code = some c) :=
  ⟨rfl, rfl, rfl, rfl, fun _ _ => ⟨rfl, rfl⟩, fun _ _ _ => ⟨rfl, rfl⟩⟩

/-- C7: the balance is the purchased-minus-consumed scalar — for every
`Credits` record, `balance` equals `total_credits - total_usage` of
its data, and `total_purchased`, `total_used` are those two fields. -/
theorem c7_balance_arithmetic (c : Credits) :
    c.balance = c.data.total_credits - c.data.total_usage ∧
    c.total_purchased = c.data.total_credits ∧
    c.total_used = c.data.total_usage :=
  ⟨rfl, rfl, rfl⟩

/-- C9: the convenience accessors are total on empty responses — a
`ChatCompletion` with no choices answers `None` for `message` and
`content`; a `StreamChunk` with no choices, or whose first delta lacks
a `"content"` key, answers `None` for `content`; and `is_finished` is
`False` exactly when no choice carries a `finish_reason`. -/
theorem c9_accessors_total (c : ChatCompletion) (s₁ s₂ : StreamChunk)
    (ch : StreamChoice) (rest : List StreamChoice)
    (hc : c.choices = []) (h₁ : s₁.choices = [])
    (h₂ : s₂.choices = ch :: rest) (hk : dictGet ch.delta "content" = none) :
    c.message = none ∧ c.content = none ∧ s₁.content = none ∧ s₂.content = none ∧
    (∀ s : StreamChunk,
      s.is_finished = false ↔ ∀ choice ∈ s.choices, choice.finish_reason = none) := by
  refine ⟨?_, ?_, ?_, ?_, ?_⟩
  · simp [ChatCompletion.message, hc]
  · simp [ChatCompletion.content, ChatCompletion.message, hc]
  · simp [StreamChunk.content, h₁]
  · simp [StreamChunk.content, h₂, hk]
  · intro s
    simp only [StreamChunk.is_finished, List.any_eq_false]
    constructor
    · intro h choice hmem
      exact Option.not_isSome_iff_eq_none.mp (h choice hmem)
    · intro h choice hmem
      simp [h choice hmem]

/-- C9, witness: the accessors at concrete empty records. -/
theorem c9_accessors_total_witness :
    (⟨"i", "o", 0, "m", [], none⟩ : ChatCompletion).message = none ∧
    (⟨"i", "o", 0, "m", [], none⟩ : ChatCompletion).content = none ∧
    (⟨"i", "o", 0, "m", []⟩ : StreamChunk).content = none ∧
    (⟨"i", "o", 0, "m", [⟨0, [("role", Json.str "assistant")], none⟩]⟩ : StreamChunk).content = none ∧
    ((⟨"i", "o", 0, "m", []⟩ : StreamChunk).is_finished = false ↔
      ∀ choice ∈ ([] : List StreamChoice), choice.finish_reason = none) := by
  have h := c9_accessors_total ⟨"i", "o", 0, "m", [], none⟩ ⟨"i", "o", 0, "m", []⟩
    ⟨"i", "o", 0, "m", [⟨0, [("role", Json.str "assistant")], none⟩]⟩
    ⟨0, [("role", Json.str "assistant")], none⟩ [] rfl rfl rfl rfl
  exact ⟨h.1, h.2.1, h.2.2.1, h.2.2.2.1, h.2.2.2.2 ⟨"i", "o", 0, "m", []⟩⟩

/-- C10: construction raises `AuthenticationError` exactly when the
`api_key` argument is `None` or empty and the `OPENROUTER_API_KEY`
environment variable is unset or empty; otherwise it succeeds and
stores the key resolved from the argument first, the environment
second (both clients alike). -/
theorem c10_init_key_resolution (api_key env_key : Option String) :
    (((api_key = none ∨ api_key = some "") ∧ (env_key = none ∨ env_key = some "")) →
      ∃ m, OpenRouterClient.init api_key env_key =
          .error ⟨.authenticationError, m, none⟩ ∧
        AsyncOpenRouterClient.init api_key env_key =
          .error ⟨.authenticationError, m, none⟩) ∧
    (∀ s, api_key = some s → s ≠ "" →
      OpenRouterClient.init api_key env_key = .ok s ∧
      AsyncOpenRouterClient.init api_key env_key = .ok s) ∧
    (∀ e, (api_key = none ∨ api_key = some "") → env_key = some e → e ≠ "" →
      OpenRouterClient.init api_key env_key = .ok e ∧
      AsyncOpenRouterClient.init api_key env_key = .ok e) := by
  refine ⟨?_, ?_, ?_⟩
  · rintro ⟨ha, he⟩
    refine ⟨"API key is required. Set OPENROUTER_API_KEY env var or pass api_key parameter.",
      ?_, ?_⟩ <;>
    · rcases ha with ha | ha <;> rcases he with he | he <;>
        simp [OpenRouterClient.init, AsyncOpenRouterClient.init, OpenRouterError.mk1, ha, he]
  · intro s ha hs
    constructor <;> simp [OpenRouterClient.init, AsyncOpenRouterClient.init, ha, hs]
  · intro e ha he hne
    constructor <;>
    · rcases ha with ha | ha <;>
        simp [OpenRouterClient.init, AsyncOpenRouterClient.init, ha, he, hne]

/-- C10, witness: the error case with nothing set, the argument-wins
case, and the environment-fallback case from an empty argument. -/
theorem c10_init_key_resolution_witness :
    (∃ m, OpenRouterClient.init none none = .error ⟨.authenticationError, m, none⟩ ∧
      AsyncOpenRouterClient.init none none = .error ⟨.authenticationError, m, none⟩) ∧
    OpenRouterClient.init (some "argk") (some "envk") = .ok "argk" ∧
    AsyncOpenRouterClient.init (some "") (some "envk") = .ok "envk" :=
  ⟨(c10_init_key_resolution none none).1 ⟨Or.inl rfl, Or.inl rfl⟩,
   ((c10_init_key_resolution (some "argk") (some "envk")).2.1 "argk" rfl (by decide)).1,
   ((c10_init_key_resolution (some "") (some "envk")).2.2 "envk" (Or.inr rfl) rfl
     (by decide)).2⟩

end OpenRouterPy
